/-
Verification development for the college-seeker repository.

The repository has two halves:

1. Ingestion & HTTP back end (src/backend.py, src/student_ingest.py,
   src/course_ingest.py): FastAPI endpoints that accept PDF uploads and
   ingest their chunked content, each chunk under a freshly generated
   UUID, into MongoDB-Atlas-backed vector stores.  These are embedded
   below directly from the source: PDF/web loading is represented by its
   result (an `Except` carrying either the loaded chunks or the raised
   error), the vector-store collection by an association list from ids
   to chunk contents, UUID generation by a supply function `ℕ → String`.

2. Recommendation core (Profile Analyzer, Course Corpus query layer,
   Recommendation Engine).  Its implementation modules
   (src/retrieval/recommender.py, src/catalog_ingestion/course_db.py,
   src/database/profiles_db.py) are imported by src/app.py but are not
   present in the repository snapshot, so the corresponding definitions
   are modelled from the specification (each such definition says so in
   its doc comment) and checked against the spec sentences.
-/
import Mathlib

namespace CollegeSeeker

/-! ## Ingestion layer, embedded from the source -/

/-- Result dictionary returned by `ingest_course_pdf`
(`course_ingest.py:204` and `course_ingest.py:206`):
a `status` field (`"success"` or `"error"`) and a `message`. -/
structure IngestResult where
  status : String
  message : String
  deriving Repr, DecidableEq

/-- A vector-store collection, as far as ingestion is concerned:
the stored documents in insertion order, each an id paired with its
chunk content. -/
abbrev Corpus : Type := List (String × String)

/-- `add_documents` for a single document with an explicit id
(MongoDB-Atlas upsert semantics: an existing id is overwritten,
a new id is appended). -/
def addDocument (corpus : Corpus) (id doc : String) : Corpus :=
  if corpus.any (fun p => p.1 = id) then
    corpus.map (fun p => if p.1 = id then (id, doc) else p)
  else
    corpus ++ [(id, doc)]

/-- `vector_store.add_documents(documents=docs, ids=uuids)`:
documents are added left to right under the given ids
(`student_ingest.py:134`, `student_ingest.py:148`, `course_ingest.py:202`). -/
def addDocuments (corpus : Corpus) (ids docs : List String) : Corpus :=
  (ids.zip docs).foldl (fun c p => addDocument c p.1 p.2) corpus

/-- `uuids = [str(uuid4()) for _ in range(len(docs))]`
(`student_ingest.py:132`, `student_ingest.py:147`, `course_ingest.py:202`):
one id drawn from the generator per chunk. -/
def freshUuids (gen : ℕ → String) (k : ℕ) : List String :=
  (List.range k).map gen

/-- `ingest_student_pdf` (`student_ingest.py:122-135`): loads and splits the
PDF (represented by `loaded`, the chunks or the raised error), generates one
uuid per chunk and adds the chunks to the student vector store.  There is no
exception handler, so a loader error propagates to the caller unchanged. -/
def ingest_student_pdf (gen : ℕ → String) (filePath : String)
    (loaded : Except String (List String)) (corpus : Corpus) :
    Except String (String × Corpus) :=
  match loaded with
  | Except.error e => Except.error e
  | Except.ok docs =>
      let uuids := freshUuids gen docs.length
      Except.ok ("Successfully ingested " ++ filePath ++ " with " ++
          toString docs.length ++ " chunks",
        addDocuments corpus uuids docs)

/-- `ingest_student_web` (`student_ingest.py:138-149`): same pipeline as
`ingest_student_pdf` with a web loader; no exception handler. -/
def ingest_student_web (gen : ℕ → String) (url : String)
    (loaded : Except String (List String)) (corpus : Corpus) :
    Except String (String × Corpus) :=
  match loaded with
  | Except.error e => Except.error e
  | Except.ok docs =>
      let uuids := freshUuids gen docs.length
      Except.ok ("Successfully ingested " ++ url ++ " with " ++
          toString docs.length ++ " chunks",
        addDocuments corpus uuids docs)

/-- `ingest_course_pdf` (`course_ingest.py:185-206`): the whole pipeline sits
inside `try/except Exception`, so the function is total: on success it
returns a status `"success"` dictionary, and on any error it catches the
exception and returns a status `"error"` dictionary instead of re-raising. -/
def ingest_course_pdf (gen : ℕ → String)
    (loaded : Except String (List String)) (corpus : Corpus) :
    IngestResult × Corpus :=
  match loaded with
  | Except.error e => (⟨"error", e⟩, corpus)
  | Except.ok docs =>
      let uuids := freshUuids gen docs.length
      (⟨"success", "Processed " ++ toString docs.length ++ " document chunks."⟩,
        addDocuments corpus uuids docs)

/-! ## FastAPI endpoints, embedded from src/backend.py -/

/-- Observable state the endpoints touch: the temp files written to disk and
the two vector-store collections. -/
structure SysState where
  tempFiles : List (String × String)
  studentCorpus : Corpus
  courseCorpus : Corpus
  deriving DecidableEq

/-- Outcome of a request to `/uploadfile/`: either an `HTTPException`
(status code and detail) or the JSON body returned on success. -/
inductive FileUploadOutcome where
  | httpError (status : ℕ) (detail : String)
  | success (info : String) (details : String)
  deriving Repr, DecidableEq

/-- Outcome of a request to `/uploadcourse/`: either an `HTTPException` or
the JSON body, whose `details` field is the dictionary returned by
`ingest_course_pdf`. -/
inductive CourseUploadOutcome where
  | httpError (status : ℕ) (detail : String)
  | success (info : String) (details : IngestResult)
  deriving Repr, DecidableEq

/-- `create_upload_file` (`backend.py:34-54`), endpoint `/uploadfile/`:
rejects non-PDF content types with HTTP 400 before touching any state,
otherwise writes the temp file, runs `ingest_student_pdf`, and converts a
propagated ingestion error into HTTP 500. -/
def create_upload_file (gen : ℕ → String) (contentType filename content : String)
    (loaded : Except String (List String)) (s : SysState) :
    FileUploadOutcome × SysState :=
  if contentType ≠ "application/pdf" then
    (FileUploadOutcome.httpError 400 "Invalid file type. Only PDF files are accepted.", s)
  else
    let tempPath := "temp/" ++ filename
    let s1 : SysState := ⟨s.tempFiles ++ [(tempPath, content)], s.studentCorpus, s.courseCorpus⟩
    match ingest_student_pdf gen tempPath loaded s1.studentCorpus with
    | Except.error e =>
        (FileUploadOutcome.httpError 500 ("An error occurred while processing the file: " ++ e), s1)
    | Except.ok (msg, corpus1) =>
        (FileUploadOutcome.success ("file " ++ filename ++ " processed successfully") msg,
          ⟨s1.tempFiles, corpus1, s1.courseCorpus⟩)

/-- `create_upload_course` (`backend.py:68-88`), endpoint `/uploadcourse/`:
rejects non-PDF content types with HTTP 400 before touching any state;
otherwise writes the temp file and runs `ingest_course_pdf`, which never
raises, so the endpoint always answers with a success-shaped body whose
`details` carry the ingestion status dictionary. -/
def create_upload_course (gen : ℕ → String) (contentType filename content : String)
    (loaded : Except String (List String)) (s : SysState) :
    CourseUploadOutcome × SysState :=
  if contentType ≠ "application/pdf" then
    (CourseUploadOutcome.httpError 400 "Invalid file type. Only PDF files are accepted.", s)
  else
    let tempPath := "temp/" ++ filename
    let s1 : SysState := ⟨s.tempFiles ++ [(tempPath, content)], s.studentCorpus, s.courseCorpus⟩
    let r := ingest_course_pdf gen loaded s1.courseCorpus
    (CourseUploadOutcome.success ("file " ++ filename ++ " processed successfully") r.1,
      ⟨s1.tempFiles, s1.studentCorpus, r.2⟩)

/-- A concrete uuid supply, used for concrete evaluations. -/
def gen0 : ℕ → String := fun i => "uuid-" ++ toString i

/-- The empty system state. -/
def st0 : SysState := ⟨[], [], []⟩

/-! ## Recommendation core

Modelled from the spec: the modules `src/retrieval/recommender.py`,
`src/catalog_ingestion/course_db.py` and `src/database/profiles_db.py`
imported at `app.py:15-19` are missing from the repository snapshot, so
the Course data model (spec section 3), the Course Corpus query layer
(spec section 4.2) and the Recommendation Engine (spec section 4.3) are
defined from the specification text.  `app.py` fixes the caller-side
contract: slider-bounded `max_courses` and `k` (`app.py:271`,
`app.py:358`), a filters dictionary with keys `level`, `department`,
`category` that are present only when a non-empty selection was made
(`app.py:296-302`), and the result shape
`{analysis, recommendations}` (`app.py:306-344`). -/

/-- Modelled from the spec (section 3, `Course`): a corpus course record.
The corpus itself is the list of courses in insertion order. -/
structure Course where
  code : String
  title : String
  department : String
  level : String
  credits : ℕ
  instructor : String
  category : String
  content : String
  deriving Repr, DecidableEq

/-- Modelled from the spec (section 4.2) and `app.py:296-302`: the three
recognized filter fields; an empty value list for a field means no
restriction on that field. -/
structure Filters where
  level : List String
  department : List String
  category : List String
  deriving Repr, DecidableEq

/-- The filter mapping with an empty value set for every field. -/
def emptyFilters : Filters := ⟨[], [], []⟩

/-- One filter field: an empty allowed set is no restriction, a non-empty
set restricts to its members. -/
def fieldMatches (allowed : List String) (v : String) : Bool :=
  allowed.isEmpty || allowed.contains v

/-- Modelled from the spec (section 4.2): the recognized fields AND their
restrictions over the course metadata. -/
def matchesFilters (f : Filters) (c : Course) : Bool :=
  fieldMatches f.level c.level && fieldMatches f.department c.department &&
    fieldMatches f.category c.category

/-- A request may also omit the filters argument entirely (`none`). -/
def matchesOptFilters (f : Option Filters) (c : Course) : Bool :=
  match f with
  | none => true
  | some f => matchesFilters f c

/-- Modelled from the spec (section 4.2): `k` values outside `[1, 20]`
are clamped into that range before the search executes. -/
def clampK (k : ℤ) : ℤ :=
  if k < 1 then 1 else if 20 < k then 20 else k

/-- Modelled from the spec (section 4.2): `CandidateHit = {course,
similarity_score}`.  Similarity scores are modelled as rationals so that
concrete searches evaluate. -/
structure CandidateHit where
  course : Course
  similarity_score : ℚ
  deriving Repr, DecidableEq

/-- Ranking relation on courses for a fixed query: `courseGE sim a b`
holds when `a` scores at least as high as `b`. -/
def courseGE (sim : Course → ℚ) (a b : Course) : Prop :=
  sim b ≤ sim a

instance (sim : Course → ℚ) : DecidableRel (courseGE sim) :=
  fun a b => inferInstanceAs (Decidable (sim b ≤ sim a))

instance (sim : Course → ℚ) : IsTotal Course (courseGE sim) :=
  ⟨fun a b => le_total (sim b) (sim a)⟩

instance (sim : Course → ℚ) : IsTrans Course (courseGE sim) :=
  ⟨fun _ _ _ h1 h2 => le_trans h2 h1⟩

/-- Modelled from the spec (section 4.2): corpus search.  The corpus is
pre-filtered on metadata, ranked by similarity descending with a stable
sort (ties keep corpus insertion order), and cut to the clamped `k`.
`sim` is the similarity of each corpus course against the fixed query
embedding. -/
def search (sim : Course → ℚ) (k : ℤ) (filters : Option Filters)
    (corpus : List Course) : List CandidateHit :=
  (((corpus.filter fun c => matchesOptFilters filters c).insertionSort
      (courseGE sim)).take (clampK k).toNat).map
    fun c => ⟨c, sim c⟩

/-- Modelled from the spec (section 3, `AnalysisResult`): the four derived
signals, all always present. -/
structure AnalysisResult where
  skill_gaps : String
  career_goals : String
  learning_level : String
  search_query : String
  deriving Repr, DecidableEq

/-- Raw signals the LLM extraction step may or may not produce, before the
analyzer applies its defaults. -/
structure RawSignals where
  skill_gaps : Option String
  career_goals : Option String
  learning_level : Option String
  search_query : Option String
  deriving Repr, DecidableEq

/-- The explicit sentinel for a missing signal (`app.py:318-321` displays
this default for each of the four fields). -/
def notSpecified : String := "Not specified"

/-- Modelled from the spec (section 4.1): the Profile Analyzer output
guarantee — every missing signal defaults to the explicit sentinel, no
field is ever omitted. -/
def analyze (r : RawSignals) : AnalysisResult :=
  ⟨r.skill_gaps.getD notSpecified, r.career_goals.getD notSpecified,
    r.learning_level.getD notSpecified, r.search_query.getD notSpecified⟩

/-- Key-based lookup into an `AnalysisResult`, the way the dictionary
consumer at `app.py:318-321` reads it: `none` models an absent key. -/
def analysisLookup (a : AnalysisResult) (key : String) : Option String :=
  if key = "skill_gaps" then some a.skill_gaps
  else if key = "career_goals" then some a.career_goals
  else if key = "learning_level" then some a.learning_level
  else if key = "search_query" then some a.search_query
  else none

/-- Modelled from the spec (section 3, `Recommendation`): one ranked,
explained output entry. -/
structure Recommendation where
  course : Course
  similarity_score : ℚ
  final_score : ℚ
  explanation : String
  deriving Repr, DecidableEq

/-- Modelled from the spec (section 4.3 step 4 and section 9): the minimal
deterministic scoring policy, `final_score = similarity_score`. -/
def finalScore (h : CandidateHit) : ℚ :=
  h.similarity_score

/-- Modelled from the spec (section 4.3 step 4): a deterministic
explanation tying course metadata to the analysis signals. -/
def explain (a : AnalysisResult) (c : Course) : String :=
  "Recommended for skill gaps " ++ a.skill_gaps ++ " and career goals " ++
    a.career_goals ++ ": " ++ c.title ++ " (" ++ c.level ++ ", " ++
    c.department ++ ")"

/-- Builds the `Recommendation` for one candidate hit. -/
def mkRecommendation (a : AnalysisResult) (h : CandidateHit) : Recommendation :=
  ⟨h.course, h.similarity_score, finalScore h, explain a h.course⟩

/-- Ranking relation on recommendations: `recGE x y` holds when `x` has at
least the final score of `y` (descending order). -/
def recGE (x y : Recommendation) : Prop :=
  y.final_score ≤ x.final_score

instance : DecidableRel recGE :=
  fun x y => inferInstanceAs (Decidable (y.final_score ≤ x.final_score))

instance : IsTotal Recommendation recGE :=
  ⟨fun x y => le_total y.final_score x.final_score⟩

instance : IsTrans Recommendation recGE :=
  ⟨fun _ _ _ h1 h2 => le_trans h2 h1⟩

/-- Modelled from the spec (section 4.3): the Recommendation Engine.
Steps 3-5 for a fixed analysis result `a` and query similarity `sim`:
search with `k = max_courses`, score and explain each candidate, sort by
`final_score` descending with a stable sort, truncate to `max_courses`. -/
def recommend (sim : Course → ℚ) (a : AnalysisResult) (max_courses : ℕ)
    (filters : Option Filters) (corpus : List Course) : List Recommendation :=
  (((search sim (max_courses : ℤ) filters corpus).map
      (mkRecommendation a)).insertionSort recGE).take max_courses

/-- Modelled from the spec (sections 4.2 and 6): the similarity between a
query embedding and a course embedding is the cosine similarity, the inner
product normalized by the norms.  The vector stores are configured with
`relevance_score_fn="cosine"` (`course_ingest.py:182`,
`student_ingest.py:45`) over 768-dimensional embeddings. -/
noncomputable def cosineSim {n : ℕ} (u v : EuclideanSpace ℝ (Fin n)) : ℝ :=
  (@inner ℝ _ _ u v) / (‖u‖ * ‖v‖)

/-! ## Concrete sample data for concrete evaluations -/

/-- A beginner AI course (spec section 8 scenario). -/
def courseA : Course :=
  ⟨"CS301", "Intro to Machine Learning", "Computer Science", "Beginner", 3,
    "Ada", "Artificial Intelligence", "ml foundations"⟩

/-- An advanced security course (spec section 8 scenario). -/
def courseB : Course :=
  ⟨"CS501", "Advanced Security", "Computer Science", "Advanced", 4,
    "Bob", "Security", "network security"⟩

/-- A second beginner course, used for tie-break checks. -/
def courseC : Course :=
  ⟨"CS302", "Data Mining", "Data Science", "Beginner", 3,
    "Cyd", "Analytics", "data mining"⟩

/-- A two-course sample corpus. -/
def corpus0 : List Course := [courseA, courseB]

/-- A concrete query similarity profile over the sample corpus. -/
def sim0 : Course → ℚ :=
  fun c => if c.code = "CS301" then 9 / 10 else 1 / 2

/-- A similarity profile in which every course ties. -/
def simTie : Course → ℚ := fun _ => 1 / 2

/-- A concrete analysis result. -/
def analysis0 : AnalysisResult :=
  ⟨"ml basics", "ml engineer", "Beginner", "machine learning beginner"⟩

/-! ## Helper lemmas -/

theorem clampK_pos (k : ℤ) : 1 ≤ clampK k := by
  unfold clampK
  split
  · omega
  · split <;> omega

theorem clampK_le (k : ℤ) : clampK k ≤ 20 := by
  unfold clampK
  split
  · omega
  · split <;> omega

theorem clampK_eq_self {c : ℤ} (h1 : 1 ≤ c) (h2 : c ≤ 20) : clampK c = c := by
  unfold clampK
  split
  · omega
  · split <;> omega

/-! ## Claim theorems -/

/-- Claim C6: every integer `k` passed to the corpus search is clamped into
`[1, 20]` before the search executes, so the effective result-set size
bound is always between 1 and 20: the clamped value lies in `[1, 20]`,
searching with `k` is the same as searching with the clamped `k`, and no
search ever returns more than 20 hits. -/
theorem search_clamps_k (k : ℤ) :
    1 ≤ clampK k ∧ clampK k ≤ 20 ∧
    (∀ (sim : Course → ℚ) (filters : Option Filters) (corpus : List Course),
      search sim k filters corpus = search sim (clampK k) filters corpus) ∧
    (∀ (sim : Course → ℚ) (filters : Option Filters) (corpus : List Course),
      (search sim k filters corpus).length ≤ 20) := by
  refine ⟨clampK_pos k, clampK_le k, ?_, ?_⟩
  · intro sim filters corpus
    unfold search
    rw [clampK_eq_self (clampK_pos k) (clampK_le k)]
  · intro sim filters corpus
    unfold search
    rw [List.length_map]
    calc (((corpus.filter fun c => matchesOptFilters filters c).insertionSort
            (courseGE sim)).take (clampK k).toNat).length
        ≤ (clampK k).toNat := List.length_take_le _ _
      _ ≤ 20 := by have := clampK_le k; omega

/-- Claim C7: searching with an empty filter mapping (an empty value set
for each filter field) returns exactly the same result sequence as
omitting filters entirely. -/
theorem search_empty_filters_identity (sim : Course → ℚ) (k : ℤ)
    (corpus : List Course) :
    search sim k (some emptyFilters) corpus = search sim k none corpus := by
  have h : ∀ c : Course,
      matchesOptFilters (some emptyFilters) c = matchesOptFilters none c := by
    intro c
    simp [matchesOptFilters, matchesFilters, emptyFilters, fieldMatches]
  unfold search
  simp only [h]

/-- Claim C4: for every input accepted by the Profile Analyzer, the result
carries all four fields — the key-based lookup of each of the four keys
always succeeds — and a missing signal is represented by the explicit
"Not specified" sentinel value rather than an absent key. -/
theorem analyze_always_four_fields (r : RawSignals) :
    (analysisLookup (analyze r) "skill_gaps").isSome = true ∧
    (analysisLookup (analyze r) "career_goals").isSome = true ∧
    (analysisLookup (analyze r) "learning_level").isSome = true ∧
    (analysisLookup (analyze r) "search_query").isSome = true ∧
    (r.skill_gaps = none → (analyze r).skill_gaps = notSpecified) ∧
    (r.career_goals = none → (analyze r).career_goals = notSpecified) ∧
    (r.learning_level = none → (analyze r).learning_level = notSpecified) ∧
    (r.search_query = none → (analyze r).search_query = notSpecified) := by
  refine ⟨rfl, rfl, rfl, rfl, ?_, ?_, ?_, ?_⟩ <;>
    · intro h
      simp [analyze, h]

/-- Claim C4 witness: on the raw extraction with every signal missing, all
four keys are present and hold the sentinel. -/
theorem analyze_always_four_fields_witness :
    (analysisLookup (analyze ⟨none, none, none, none⟩) "skill_gaps").isSome = true ∧
    (analyze ⟨none, none, none, none⟩).skill_gaps = notSpecified ∧
    (analyze ⟨none, none, none, none⟩).search_query = notSpecified :=
  ⟨(analyze_always_four_fields ⟨none, none, none, none⟩).1,
    (analyze_always_four_fields ⟨none, none, none, none⟩).2.2.2.2.1 rfl,
    (analyze_always_four_fields ⟨none, none, none, none⟩).2.2.2.2.2.2.2 rfl⟩

/-- Claim C9: every upload request to `/uploadfile/` or `/uploadcourse/`
whose content type is not `application/pdf` fails with HTTP 400, and the
system state — temp files and both corpora — is returned unchanged. -/
theorem upload_non_pdf_rejected (gen : ℕ → String)
    (contentType filename content : String)
    (loaded : Except String (List String)) (s : SysState)
    (h : contentType ≠ "application/pdf") :
    create_upload_file gen contentType filename content loaded s =
      (FileUploadOutcome.httpError 400 "Invalid file type. Only PDF files are accepted.", s) ∧
    create_upload_course gen contentType filename content loaded s =
      (CourseUploadOutcome.httpError 400 "Invalid file type. Only PDF files are accepted.", s) := by
  refine ⟨?_, ?_⟩
  · unfold create_upload_file
    rw [if_pos h]
  · unfold create_upload_course
    rw [if_pos h]

/-- Claim C9 witness: a concrete `text/plain` upload is rejected with 400
by both endpoints and leaves the empty state unchanged. -/
theorem upload_non_pdf_rejected_witness :
    ("text/plain" : String) ≠ "application/pdf" ∧
    create_upload_file gen0 "text/plain" "a.pdf" "x" (Except.ok ["c1"]) st0 =
      (FileUploadOutcome.httpError 400 "Invalid file type. Only PDF files are accepted.", st0) ∧
    create_upload_course gen0 "text/plain" "a.pdf" "x" (Except.ok ["c1"]) st0 =
      (CourseUploadOutcome.httpError 400 "Invalid file type. Only PDF files are accepted.", st0) := by
  have h : ("text/plain" : String) ≠ "application/pdf" := by decide
  exact ⟨h, (upload_non_pdf_rejected gen0 _ _ _ _ st0 h).1,
    (upload_non_pdf_rejected gen0 _ _ _ _ st0 h).2⟩

/-- Claim C3 counterexample: `ingest_course_pdf` catches a failing pipeline
step and returns a status `"error"` dictionary in its place, and
`/uploadcourse/` then answers with a success-shaped body carrying that
dictionary — the error does not propagate to the caller. -/
theorem course_ingest_error_swallowed :
    ingest_course_pdf gen0 (Except.error "boom") [] = (⟨"error", "boom"⟩, []) ∧
    (create_upload_course gen0 "application/pdf" "b.pdf" "content"
        (Except.error "boom") st0).1 =
      CourseUploadOutcome.success "file b.pdf processed successfully" ⟨"error", "boom"⟩ := by
  exact ⟨rfl, rfl⟩

/-- Claim C3 as amended: errors in `ingest_student_pdf` and
`ingest_student_web` propagate to their callers unchanged, and
`/uploadfile/` surfaces them as HTTP 500; `ingest_course_pdf`, however,
catches every pipeline error and returns a status `"error"` dictionary,
which `/uploadcourse/` wraps in a success-shaped response. -/
theorem ingest_error_propagation (gen : ℕ → String)
    (p e filename content : String) (s : SysState) :
    ingest_student_pdf gen p (Except.error e) s.studentCorpus = Except.error e ∧
    ingest_student_web gen p (Except.error e) s.studentCorpus = Except.error e ∧
    (create_upload_file gen "application/pdf" filename content (Except.error e) s).1 =
      FileUploadOutcome.httpError 500 ("An error occurred while processing the file: " ++ e) ∧
    ingest_course_pdf gen (Except.error e) s.courseCorpus = (⟨"error", e⟩, s.courseCorpus) ∧
    (create_upload_course gen "application/pdf" filename content (Except.error e) s).1 =
      CourseUploadOutcome.success ("file " ++ filename ++ " processed successfully")
        ⟨"error", e⟩ := by
  refine ⟨rfl, rfl, ?_, rfl, ?_⟩
  · unfold create_upload_file
    rw [if_neg (by simp)]
    rfl
  · unfold create_upload_course
    rw [if_neg (by simp)]
    rfl

theorem addDocuments_of_fresh (ids : List String) :
    ∀ (docs : List String) (corpus : Corpus), ids.Nodup →
      (∀ u ∈ ids, ∀ p ∈ corpus, p.1 ≠ u) → ids.length = docs.length →
      addDocuments corpus ids docs = corpus ++ ids.zip docs := by
  induction ids with
  | nil =>
      intro docs corpus _ _ _
      simp [addDocuments]
  | cons id ids ih =>
      intro docs corpus hnodup hfresh hlen
      cases docs with
      | nil => simp at hlen
      | cons d ds =>
          have hid : corpus.any (fun p => p.1 = id) = false := by
            rw [List.any_eq_false]
            intro p hp
            simpa using hfresh id (List.mem_cons_self _ _) p hp
          have step : addDocument corpus id d = corpus ++ [(id, d)] := by
            simp [addDocument, hid]
          have unfolded : addDocuments corpus (id :: ids) (d :: ds) =
              addDocuments (addDocument corpus id d) ids ds := rfl
          have hfresh1 : ∀ u ∈ ids, ∀ p ∈ corpus ++ [(id, d)], p.1 ≠ u := by
            intro u hu p hp
            rcases List.mem_append.mp hp with hp1 | hp2
            · exact hfresh u (List.mem_cons_of_mem _ hu) p hp1
            · have hp3 : p = (id, d) := by simpa using hp2
              have hne : id ∉ ids := (List.nodup_cons.mp hnodup).1
              intro hcontra
              have hidu : id = u := by rw [hp3] at hcontra; exact hcontra
              exact hne (by rw [hidu]; exact hu)
          rw [unfolded, step,
            ih ds (corpus ++ [(id, d)]) (List.nodup_cons.mp hnodup).2 hfresh1
              (by simpa using hlen)]
          simp

/-- Claim C10: a successful ingestion call assigns exactly one freshly
generated UUID per chunk (the id list has the same length as the chunk
list); under freshness of the generated ids the call only appends new
entries — the corpus grows by exactly the number of chunks and every
pre-existing entry is preserved unchanged. -/
theorem ingest_adds_fresh_chunks (gen : ℕ → String) (filePath : String)
    (docs : List String) (corpus : Corpus)
    (hnodup : (freshUuids gen docs.length).Nodup)
    (hfresh : ∀ u ∈ freshUuids gen docs.length, ∀ p ∈ corpus, p.1 ≠ u) :
    (freshUuids gen docs.length).length = docs.length ∧
    ingest_student_pdf gen filePath (Except.ok docs) corpus =
      Except.ok ("Successfully ingested " ++ filePath ++ " with " ++
          toString docs.length ++ " chunks",
        corpus ++ (freshUuids gen docs.length).zip docs) ∧
    ingest_student_web gen filePath (Except.ok docs) corpus =
      Except.ok ("Successfully ingested " ++ filePath ++ " with " ++
          toString docs.length ++ " chunks",
        corpus ++ (freshUuids gen docs.length).zip docs) ∧
    ingest_course_pdf gen (Except.ok docs) corpus =
      (⟨"success", "Processed " ++ toString docs.length ++ " document chunks."⟩,
        corpus ++ (freshUuids gen docs.length).zip docs) ∧
    (corpus ++ (freshUuids gen docs.length).zip docs).length =
      corpus.length + docs.length ∧
    (∀ p ∈ corpus, p ∈ corpus ++ (freshUuids gen docs.length).zip docs) := by
  have hlen : (freshUuids gen docs.length).length = docs.length := by
    simp [freshUuids]
  have hadd := addDocuments_of_fresh (freshUuids gen docs.length) docs corpus
    hnodup hfresh hlen
  refine ⟨hlen, ?_, ?_, ?_, ?_, ?_⟩
  · simp [ingest_student_pdf, hadd]
  · simp [ingest_student_web, hadd]
  · simp [ingest_course_pdf, hadd]
  · simp [List.length_zip, hlen]
  · intro p hp
    exact List.mem_append_left _ hp

/-- Claim C10 witness: ingesting two concrete chunks into a one-entry
corpus appends them under the two generated uuids and grows the corpus
from one entry to three. -/
theorem ingest_adds_fresh_chunks_witness :
    ingest_student_pdf gen0 "r.pdf" (Except.ok ["alpha", "beta"]) [("cid", "x")] =
      Except.ok ("Successfully ingested " ++ "r.pdf" ++ " with " ++
          toString (["alpha", "beta"] : List String).length ++ " chunks",
        [("cid", "x")] ++
          (freshUuids gen0 (["alpha", "beta"] : List String).length).zip
            ["alpha", "beta"]) ∧
    ([("cid", "x")] ++
        (freshUuids gen0 (["alpha", "beta"] : List String).length).zip
          ["alpha", "beta"]).length = 1 + 2 := by
  have h := ingest_adds_fresh_chunks gen0 "r.pdf" ["alpha", "beta"]
    [("cid", "x")] (by decide) (by decide)
  exact ⟨h.2.1, h.2.2.2.2.1⟩

/-- Claim C5: given a fixed analysis result and a fixed corpus snapshot
(equal similarity profile, analysis, `max_courses` and filters), two runs
of `recommend` produce identical outputs, and `final_score` is the
deterministic scoring policy applied to `similarity_score` — no random
perturbation — while the explanation is a deterministic function of the
analysis and the course. -/
theorem recommend_deterministic (sim1 sim2 : Course → ℚ)
    (a1 a2 : AnalysisResult) (n1 n2 : ℕ) (f1 f2 : Option Filters)
    (c1 c2 : List Course) (hs : sim1 = sim2) (ha : a1 = a2) (hn : n1 = n2)
    (hf : f1 = f2) (hc : c1 = c2) :
    recommend sim1 a1 n1 f1 c1 = recommend sim2 a2 n2 f2 c2 ∧
    (∀ r ∈ recommend sim1 a1 n1 f1 c1, r.final_score = r.similarity_score) ∧
    (∀ r ∈ recommend sim1 a1 n1 f1 c1, r.explanation = explain a1 r.course) := by
  subst hs
  subst ha
  subst hn
  subst hf
  subst hc
  have hmem : ∀ r ∈ recommend sim1 a1 n1 f1 c1,
      ∃ h : CandidateHit, r = mkRecommendation a1 h := by
    intro r hr
    have h1 : r ∈ ((search sim1 (n1 : ℤ) f1 c1).map
        (mkRecommendation a1)).insertionSort recGE := List.mem_of_mem_take hr
    rw [List.mem_insertionSort] at h1
    obtain ⟨h, _, hr2⟩ := List.mem_map.mp h1
    exact ⟨h, hr2.symm⟩
  refine ⟨rfl, ?_, ?_⟩
  · intro r hr
    obtain ⟨h, rfl⟩ := hmem r hr
    rfl
  · intro r hr
    obtain ⟨h, rfl⟩ := hmem r hr
    rfl

/-- Claim C5 witness: the two runs on concrete equal inputs coincide, and
each returned entry scores by the deterministic policy. -/
theorem recommend_deterministic_witness :
    recommend sim0 analysis0 5 none corpus0 = recommend sim0 analysis0 5 none corpus0 ∧
    (∀ r ∈ recommend sim0 analysis0 5 none corpus0,
      r.final_score = r.similarity_score) :=
  ⟨(recommend_deterministic sim0 sim0 analysis0 analysis0 5 5 none none
      corpus0 corpus0 rfl rfl rfl rfl rfl).1,
    (recommend_deterministic sim0 sim0 analysis0 analysis0 5 5 none none
      corpus0 corpus0 rfl rfl rfl rfl rfl).2.1⟩

/-- Claim C1: for every analysis, similarity profile, filters and
UI-ranged `max_courses = n` (the slider exposes 1-20), the recommendation
list has length at most `n` and at most the number of corpus courses
satisfying the filters, and when fewer than `n` courses match, exactly the
matching courses are returned — no padding and no error. -/
theorem recommend_length_and_exhaustive (sim : Course → ℚ)
    (a : AnalysisResult) (filters : Option Filters) (corpus : List Course)
    (n : ℕ) (hn : n ≤ 20) :
    (recommend sim a n filters corpus).length ≤ n ∧
    (recommend sim a n filters corpus).length ≤
      (corpus.filter fun c => matchesOptFilters filters c).length ∧
    ((corpus.filter fun c => matchesOptFilters filters c).length < n →
      List.Perm ((recommend sim a n filters corpus).map fun r => r.course)
        (corpus.filter fun c => matchesOptFilters filters c)) := by
  have hS : (search sim (n : ℤ) filters corpus).length ≤
      (corpus.filter fun c => matchesOptFilters filters c).length := by
    unfold search
    rw [List.length_map]
    calc (((corpus.filter fun c => matchesOptFilters filters c).insertionSort
            (courseGE sim)).take (clampK (n : ℤ)).toNat).length
        ≤ ((corpus.filter fun c => matchesOptFilters filters c).insertionSort
            (courseGE sim)).length := by
          rw [List.length_take]
          exact min_le_right _ _
      _ = (corpus.filter fun c => matchesOptFilters filters c).length :=
          List.length_insertionSort _ _
  have hlen2 : (recommend sim a n filters corpus).length ≤
      (corpus.filter fun c => matchesOptFilters filters c).length := by
    unfold recommend
    calc ((((search sim (n : ℤ) filters corpus).map
            (mkRecommendation a)).insertionSort recGE).take n).length
        ≤ (((search sim (n : ℤ) filters corpus).map
            (mkRecommendation a)).insertionSort recGE).length := by
          rw [List.length_take]
          exact min_le_right _ _
      _ = ((search sim (n : ℤ) filters corpus).map
            (mkRecommendation a)).length := List.length_insertionSort _ _
      _ = (search sim (n : ℤ) filters corpus).length := List.length_map _ _
      _ ≤ (corpus.filter fun c => matchesOptFilters filters c).length := hS
  refine ⟨List.length_take_le _ _, hlen2, ?_⟩
  intro hfew
  have hpos : 1 ≤ n := by omega
  have hck : (clampK (n : ℤ)).toNat = n := by
    rw [clampK_eq_self (by exact_mod_cast hpos) (by exact_mod_cast hn)]
    simp
  have hsort_len : ((corpus.filter fun c => matchesOptFilters filters c).insertionSort
      (courseGE sim)).length =
      (corpus.filter fun c => matchesOptFilters filters c).length :=
    List.length_insertionSort _ _
  have htake : ((corpus.filter fun c => matchesOptFilters filters c).insertionSort
        (courseGE sim)).take (clampK (n : ℤ)).toNat =
      (corpus.filter fun c => matchesOptFilters filters c).insertionSort
        (courseGE sim) := by
    rw [hck]
    exact List.take_of_length_le (by rw [hsort_len]; omega)
  have hSdef : search sim (n : ℤ) filters corpus =
      ((corpus.filter fun c => matchesOptFilters filters c).insertionSort
        (courseGE sim)).map (fun c => ⟨c, sim c⟩) := by
    unfold search
    rw [htake]
  have hSlen : (search sim (n : ℤ) filters corpus).length =
      (corpus.filter fun c => matchesOptFilters filters c).length := by
    rw [hSdef, List.length_map, hsort_len]
  have hrec : recommend sim a n filters corpus =
      ((search sim (n : ℤ) filters corpus).map
        (mkRecommendation a)).insertionSort recGE := by
    unfold recommend
    refine List.take_of_length_le ?_
    rw [List.length_insertionSort, List.length_map, hSlen]
    omega
  rw [hrec]
  have hperm1 : List.Perm
      ((((search sim (n : ℤ) filters corpus).map
        (mkRecommendation a)).insertionSort recGE).map fun r => r.course)
      (((search sim (n : ℤ) filters corpus).map
        (mkRecommendation a)).map fun r => r.course) :=
    (List.perm_insertionSort _ _).map _
  have hMc : ((search sim (n : ℤ) filters corpus).map
      (mkRecommendation a)).map (fun r => r.course) =
      (corpus.filter fun c => matchesOptFilters filters c).insertionSort
        (courseGE sim) := by
    rw [hSdef]
    simp only [List.map_map]
    have hcomp : ((fun r : Recommendation => r.course) ∘ mkRecommendation a ∘
        fun c => (⟨c, sim c⟩ : CandidateHit)) = id := funext fun c => rfl
    rw [hcomp, List.map_id]
  refine hperm1.trans ?_
  rw [hMc]
  exact List.perm_insertionSort _ _

/-- Claim C1 witness: with two matching corpus courses and `n = 5`, the
result has at most 5 entries and is exactly the two matching courses. -/
theorem recommend_length_and_exhaustive_witness :
    (recommend sim0 analysis0 5 none corpus0).length ≤ 5 ∧
    List.Perm ((recommend sim0 analysis0 5 none corpus0).map fun r => r.course)
      (corpus0.filter fun c => matchesOptFilters none c) := by
  have h := recommend_length_and_exhaustive sim0 analysis0 none corpus0 5
    (by decide)
  exact ⟨h.1, h.2.2 (by decide)⟩

/-- Claim C2: every recommendation list is sorted by `final_score` in
descending order (no two adjacent entries violate the ordering); the sort
is stable, so entries with tied final scores keep their incoming order and
tied courses keep corpus insertion order in the ranking; and the output is
the sorted list truncated to `max_courses`. -/
theorem recommend_sorted_stable_truncated (sim : Course → ℚ)
    (a : AnalysisResult) (filters : Option Filters) (corpus : List Course)
    (n : ℕ) :
    List.Sorted recGE (recommend sim a n filters corpus) ∧
    (∀ r1 r2 : Recommendation, r1.final_score = r2.final_score →
      List.Sublist [r1, r2]
        ((search sim (n : ℤ) filters corpus).map (mkRecommendation a)) →
      List.Sublist [r1, r2]
        (((search sim (n : ℤ) filters corpus).map
          (mkRecommendation a)).insertionSort recGE)) ∧
    (∀ c1 c2 : Course, sim c1 = sim c2 →
      List.Sublist [c1, c2] (corpus.filter fun c => matchesOptFilters filters c) →
      List.Sublist [c1, c2]
        ((corpus.filter fun c => matchesOptFilters filters c).insertionSort
          (courseGE sim))) ∧
    recommend sim a n filters corpus =
      (((search sim (n : ℤ) filters corpus).map
        (mkRecommendation a)).insertionSort recGE).take n := by
  refine ⟨?_, ?_, ?_, rfl⟩
  · exact List.Pairwise.sublist (List.take_sublist _ _)
      (List.sorted_insertionSort recGE _)
  · intro r1 r2 htie hsub
    exact List.pair_sublist_insertionSort (show recGE r1 r2 from htie.symm.le) hsub
  · intro c1 c2 htie hsub
    exact List.pair_sublist_insertionSort
      (show courseGE sim c1 c2 from htie.symm.le) hsub

/-- Claim C2 witness: on a corpus of two tied courses the output is sorted
and the ranking keeps the two tied courses in corpus insertion order. -/
theorem recommend_sorted_stable_truncated_witness :
    List.Sorted recGE (recommend simTie analysis0 2 none [courseA, courseC]) ∧
    List.Sublist [courseA, courseC]
      (([courseA, courseC].filter fun c => matchesOptFilters none c).insertionSort
        (courseGE simTie)) := by
  have h := recommend_sorted_stable_truncated simTie analysis0 none
    [courseA, courseC] 2
  refine ⟨h.1, h.2.2.1 courseA courseC rfl ?_⟩
  decide

/-- Claim C8: the similarity score of a candidate against a query is the
cosine similarity — the inner product of the two embedding vectors
normalized by their norms — it always lies in `[-1, 1]`, and it coincides
with the explicit normalized-inner-product formula over the coordinates. -/
theorem cosineSim_bounds {n : ℕ} (u v : EuclideanSpace ℝ (Fin n)) :
    -1 ≤ cosineSim u v ∧ cosineSim u v ≤ 1 ∧
    cosineSim u v =
      (∑ i, u i * v i) /
        (Real.sqrt (∑ i, u i ^ 2) * Real.sqrt (∑ i, v i ^ 2)) := by
  have h : |cosineSim u v| ≤ 1 := abs_real_inner_div_norm_mul_norm_le_one u v
  rw [abs_le] at h
  refine ⟨h.1, h.2, ?_⟩
  have hnum : (@inner ℝ _ _ u v) = ∑ i, u i * v i := by
    rw [PiLp.inner_apply]
    simp [RCLike.inner_apply]
  have hden : ‖u‖ * ‖v‖ =
      Real.sqrt (∑ i, u i ^ 2) * Real.sqrt (∑ i, v i ^ 2) := by
    rw [EuclideanSpace.norm_eq u, EuclideanSpace.norm_eq v]
    simp [Real.norm_eq_abs, sq_abs]
  unfold cosineSim
  rw [hnum, hden]

end CollegeSeeker
